import Mathlib

/-!
Shallow embedding of the vocab_builder lesson engine.

The repository ships the relational schema (src/schema.sql), the template
fixtures (src/db_data/templates.json) and the Next.js frontend
(src/vocabulary-frontend). The backend engine itself (Flask + SQLAlchemy:
MasteryStore, LessonScheduler, TaskGenerator, EvaluationEngine) is not part
of the sources; where a definition embeds that missing engine it is marked
`Modelled from the spec:` and follows the specification text. Definitions
taken from files under src/ cite the file they embed.
-/

namespace VocabBuilder

/-- Error taxonomy of the engine (spec section 7). -/
inductive EngineError where
  | NotFound
  | InvalidScore
  | StaleSubmission
  | GenerationUnavailable
  | EvaluationUnavailable
  deriving DecidableEq, Repr

/-- Embeds `LexicalItem` from src/vocabulary-frontend/app/lib/definitions.ts:
a word with its surface form, part of speech and corpus frequency rank. -/
structure LexicalItem where
  id : Nat
  item : String
  pos : String
  freq : Nat
  deriving DecidableEq, Repr

/-! ## MasteryStore

Modelled from the spec: the MasteryStore component (spec section 4.2) is not
under src/; only its relational shape survives as the `learning_data` table of
src/schema.sql, whose CHECK constraint demands `score >= 0 AND score <= 10`
and whose UNIQUE (user_id, word_id) demands one record per (user, word). -/

/-- One mastery record per (user_id, word_id) key, holding a score. -/
abbrev MasteryStore : Type := List ((Nat × Nat) × Int)

/-- The empty store: no user has seen any word. -/
def MasteryStore.empty : MasteryStore := []

/-- Modelled from the spec: `getScore(user, word) -> score in [0,10] or
Unseen`; `none` is the distinct Unseen state. -/
def getScore (st : MasteryStore) (user word : Nat) : Option Int :=
  st.lookup (user, word)

/-- Replace or insert the record for (user, word), keeping the UNIQUE
(user_id, word_id) shape of `learning_data`. -/
def upsertScore (st : MasteryStore) (user word : Nat) (score : Int) : MasteryStore :=
  ((user, word), score) :: st.filter (fun e => e.1 ≠ (user, word))

/-- Modelled from the spec: `recordScore(user, word, score)` upserts the
MasteryRecord and fails with `InvalidScore` if score is outside [0,10]. -/
def recordScore (st : MasteryStore) (user word : Nat) (score : Int) :
    Except EngineError MasteryStore :=
  if score < 0 ∨ 10 < score then .error .InvalidScore
  else .ok (upsertScore st user word score)

/-- Run a sequence of recordScore calls; a call rejected with InvalidScore
leaves the store as it was. -/
def runCalls (calls : List (Nat × Nat × Int)) (st : MasteryStore) : MasteryStore :=
  match calls with
  | [] => st
  | (u, w, s) :: rest =>
      match recordScore st u w s with
      | .ok st' => runCalls rest st'
      | .error _ => runCalls rest st

/-- Every score stored in the store lies in [0,10]. -/
def storeClamped (st : MasteryStore) : Prop :=
  ∀ e ∈ st, 0 ≤ e.2 ∧ e.2 ≤ 10

theorem storeClamped_empty : storeClamped MasteryStore.empty := by
  intro e he; cases he

theorem storeClamped_upsert {st : MasteryStore} (h : storeClamped st)
    {u w : Nat} {s : Int} (h0 : 0 ≤ s) (h10 : s ≤ 10) :
    storeClamped (upsertScore st u w s) := by
  intro e he
  rcases List.mem_cons.mp he with rfl | hmem
  · exact ⟨h0, h10⟩
  · exact h e (List.mem_of_mem_filter hmem)

theorem storeClamped_runCalls (calls : List (Nat × Nat × Int)) {st : MasteryStore}
    (h : storeClamped st) : storeClamped (runCalls calls st) := by
  induction calls generalizing st with
  | nil => exact h
  | cons c rest ih =>
      obtain ⟨u, w, s⟩ := c
      unfold runCalls recordScore
      by_cases hs : s < 0 ∨ 10 < s
      · simp only [hs, if_pos]
        exact ih h
      · simp only [hs, if_neg, not_false_iff]
        push_neg at hs
        exact ih (storeClamped_upsert h hs.1 hs.2)

theorem mem_of_getScore {st : MasteryStore} {u w : Nat} {s : Int}
    (h : getScore st u w = some s) : ((u, w), s) ∈ st := by
  unfold getScore at h
  obtain ⟨l₁, l₂, rfl, -⟩ := List.lookup_eq_some_iff.mp h
  simp

theorem getScore_of_storeClamped {st : MasteryStore} (h : storeClamped st)
    {u w : Nat} {s : Int} (hs : getScore st u w = some s) : 0 ≤ s ∧ s ≤ 10 :=
  h _ (mem_of_getScore hs)

/-! ## LessonScheduler

Modelled from the spec: the LessonScheduler (spec section 4.3) is not under
src/; the `words` table of src/schema.sql carries the frequency rank it sorts
by, and the `evaluations` table carries the (lesson_id, sequence_number)
slots the plan is persisted into. -/

/-- Modelled from the spec: tunable policy constants of the scheduler
(spec sections 4.3 and 9). `reviewPerNew` is the review side of the fixed
review : new interleave (e.g. 2 review : 1 new). -/
structure SchedulerConfig where
  threshold : Int
  maxNew : Nat
  reviewPerNew : Nat
  lessonCap : Nat
  deriving Repr

/-- Modelled from the spec: `wordsDueForReview(user, threshold)` — words whose
score is below `threshold` but not Unseen. The catalog argument is
`wordsByFrequency`: the full word list in ascending frequency-rank order. -/
def wordsDueForReview (st : MasteryStore) (user : Nat) (threshold : Int)
    (catalog : List LexicalItem) : List LexicalItem :=
  catalog.filter (fun w =>
    match getScore st user w.id with
    | some s => decide (s < threshold)
    | none => false)

/-- Modelled from the spec: `wordsNeverSeen(user)` — words with no
MasteryRecord, ordered by WordCatalog frequency rank (the catalog order). -/
def wordsNeverSeen (st : MasteryStore) (user : Nat)
    (catalog : List LexicalItem) : List LexicalItem :=
  catalog.filter (fun w => (getScore st user w.id).isNone)

/-- Modelled from the spec: emit review and new words in a fixed ratio
(`k` review : 1 new) until either pool is exhausted, then drain the
remainder of the other pool. -/
def interleavePool (k : Nat) : List LexicalItem → List LexicalItem → List LexicalItem
  | reviews, [] => reviews
  | [], news => news
  | reviews, n :: news => reviews.take k ++ n :: interleavePool k (reviews.drop k) news

/-- Modelled from the spec: the ordered word plan of one Lesson — review
candidates interleaved with the first `maxNew` never-seen words, cut at the
lesson length cap. -/
def lessonPlanWords (cfg : SchedulerConfig) (st : MasteryStore) (user : Nat)
    (catalog : List LexicalItem) : List LexicalItem :=
  (interleavePool cfg.reviewPerNew
      (wordsDueForReview st user cfg.threshold catalog)
      ((wordsNeverSeen st user catalog).take cfg.maxNew)).take cfg.lessonCap

/-- Modelled from the spec: each planned word gets a `sequence_number`
starting at 1, in plan order. -/
def lessonPlan (cfg : SchedulerConfig) (st : MasteryStore) (user : Nat)
    (catalog : List LexicalItem) : List (Nat × LexicalItem) :=
  List.enumFrom 1 (lessonPlanWords cfg st user catalog)

theorem interleavePool_nil_left (k : Nat) (news : List LexicalItem) :
    interleavePool k [] news = news := by
  cases news with
  | nil => rfl
  | cons n ns => rfl

theorem mem_of_head?_eq_some {α : Type} {l : List α} {a : α}
    (h : l.head? = some a) : a ∈ l := by
  cases l with
  | nil => cases h
  | cons b bs =>
      simp only [List.head?_cons, Option.some.injEq] at h
      subst h
      exact List.mem_cons_self _ _

theorem head?_take_of_pos {α : Type} {l : List α} {n : Nat} (h : 1 ≤ n) :
    (l.take n).head? = l.head? := by
  cases l with
  | nil => simp
  | cons a as =>
    cases n with
    | zero => omega
    | succ m => simp

/-! ## Claim theorems C1, C2 -/

/-- C1: the mastery score stored in a MasteryRecord is always in [0,10] —
`recordScore` fails with `InvalidScore` whenever the score is outside [0,10],
and under any sequence of `recordScore` calls (boundary values included)
`getScore` never returns a value below 0 or above 10. -/
theorem mastery_score_clamped :
    (∀ (st : MasteryStore) (u w : Nat) (s : Int), (s < 0 ∨ 10 < s) →
      recordScore st u w s = Except.error EngineError.InvalidScore)
    ∧ (∀ (calls : List (Nat × Nat × Int)) (u w : Nat) (s : Int),
      getScore (runCalls calls MasteryStore.empty) u w = some s → 0 ≤ s ∧ s ≤ 10) := by
  constructor
  · intro st u w s hs
    unfold recordScore
    simp [hs]
  · intro calls u w s hs
    exact getScore_of_storeClamped (storeClamped_runCalls calls storeClamped_empty) hs

/-- Witness for C1: recording 11 is rejected with InvalidScore, and after the
boundary-value call sequence 11, -1, 0, 10 the stored score 10 obeys the
bounds. -/
theorem mastery_score_clamped_witness :
    recordScore MasteryStore.empty 0 1 11 = Except.error EngineError.InvalidScore
    ∧ (0 ≤ (10 : Int) ∧ (10 : Int) ≤ 10) :=
  ⟨mastery_score_clamped.1 MasteryStore.empty 0 1 11 (Or.inr (by decide)),
   mastery_score_clamped.2 [(0, 1, 11), (0, 1, -1), (0, 1, 0), (0, 1, 10)] 0 1 10 (by decide)⟩

/-- C2: for every Lesson plan with N planned words, the sequence numbers of
its scheduled slots are exactly 1..N — strictly increasing, gapless, starting
at 1, with no repeats. -/
theorem sequence_numbers_exact (cfg : SchedulerConfig) (st : MasteryStore)
    (user : Nat) (catalog : List LexicalItem) :
    (lessonPlan cfg st user catalog).map Prod.fst
      = List.range' 1 (lessonPlanWords cfg st user catalog).length := by
  unfold lessonPlan
  exact List.enumFrom_map_fst 1 _

/-! ## Claim theorem C5 -/

/-- C5: with no review candidates and a non-empty never-seen pool, the plan
is all-new, drawn from `wordsNeverSeen` up to the max-new and lesson caps in
ascending frequency-rank order, and its first word is the never-seen word of
lowest rank (the head of the rank-ordered never-seen sequence). -/
theorem scheduler_new_words_first (cfg : SchedulerConfig) (st : MasteryStore)
    (user : Nat) (catalog : List LexicalItem)
    (hrev : wordsDueForReview st user cfg.threshold catalog = [])
    (hmax : 1 ≤ cfg.maxNew) (hcap : 1 ≤ cfg.lessonCap)
    (hsorted : catalog.Pairwise (fun a b => a.freq ≤ b.freq)) :
    lessonPlanWords cfg st user catalog
        = ((wordsNeverSeen st user catalog).take cfg.maxNew).take cfg.lessonCap
    ∧ (∀ w ∈ lessonPlanWords cfg st user catalog, w ∈ wordsNeverSeen st user catalog)
    ∧ (lessonPlanWords cfg st user catalog).head?
        = (wordsNeverSeen st user catalog).head?
    ∧ (lessonPlanWords cfg st user catalog).Pairwise (fun a b => a.freq ≤ b.freq) := by
  have hplan : lessonPlanWords cfg st user catalog
      = ((wordsNeverSeen st user catalog).take cfg.maxNew).take cfg.lessonCap := by
    unfold lessonPlanWords
    rw [hrev, interleavePool_nil_left]
  refine ⟨hplan, ?_, ?_, ?_⟩
  · intro w hw
    rw [hplan] at hw
    exact List.take_subset _ _ (List.take_subset _ _ hw)
  · rw [hplan, head?_take_of_pos hcap, head?_take_of_pos hmax]
  · rw [hplan]
    have hns : (wordsNeverSeen st user catalog).Pairwise (fun a b => a.freq ≤ b.freq) :=
      List.Pairwise.filter _ hsorted
    exact List.Pairwise.sublist (List.take_sublist _ _)
      (List.Pairwise.sublist (List.take_sublist _ _) hns)

/-- Scenario fixture for C5: Haus has rank 1, Apfel rank 2 (spec section 8). -/
def demoHaus : LexicalItem := ⟨1, "Haus", "NOUN", 1⟩

/-- Scenario fixture for C5: the rank-2 word. -/
def demoApfel : LexicalItem := ⟨2, "Apfel", "NOUN", 2⟩

/-- Scenario fixture for C5: catalog in ascending rank order. -/
def demoCatalog : List LexicalItem := [demoHaus, demoApfel]

/-- Scenario fixture for C5: threshold 7, max 10 new words, 2 review : 1 new,
lesson cap 5. -/
def demoConfig : SchedulerConfig := ⟨7, 10, 2, 5⟩

/-- Witness for C5: for a brand-new user the plan starts with the lowest-rank
never-seen word. -/
theorem scheduler_new_words_first_witness :
    (lessonPlanWords demoConfig MasteryStore.empty 0 demoCatalog).head?
      = (wordsNeverSeen MasteryStore.empty 0 demoCatalog).head? :=
  (scheduler_new_words_first demoConfig MasteryStore.empty 0 demoCatalog
    (by decide) (by decide) (by decide) (by decide)).2.2.1

/-! ## Task and EvaluationEngine

The Task shape embeds `Task` from
src/vocabulary-frontend/app/lib/definitions.ts: `resources` is a
`Record<string, ...>` keyed by the template parameter name, each resource
carrying its `target_words`, and `learning_items` is the set of words the
task targets. The grading itself (spec section 4.5) is not under src/ and is
modelled from the spec. -/

/-- Embeds one entry of `Task.resources` from
src/vocabulary-frontend/app/lib/definitions.ts. -/
structure TaskResource where
  id : Nat
  resource : String
  target_words : List LexicalItem
  deriving DecidableEq, Repr

/-- Embeds `Task` from src/vocabulary-frontend/app/lib/definitions.ts. -/
structure Task where
  id : Nat
  task_type : String
  task_string : String
  correctAnswer : String
  resources : List (String × TaskResource)
  learning_items : List LexicalItem
  deriving DecidableEq, Repr

/-- Modelled from the spec: the Task target-word set is the union of the
target words referenced by its Resources, deduplicated (spec section 3). -/
def taskTargetWords (resources : List (String × TaskResource)) : List LexicalItem :=
  (resources.map (fun p => p.2.target_words)).flatten.dedup

/-- Modelled from the spec: the TaskGenerator assembles a Task from its
resources; a Task whose target-word set would be empty fails basic
validation and is rejected with `GenerationUnavailable` (spec sections 3
and 4.4). -/
def buildTask (id : Nat) (ttype tstring answer : String)
    (resources : List (String × TaskResource)) : Except EngineError Task :=
  match taskTargetWords resources with
  | [] => .error .GenerationUnavailable
  | w :: ws => .ok ⟨id, ttype, tstring, answer, resources, w :: ws⟩

/-- Map an external confidence onto the 0-10 scale (spec section 4.5). -/
def clampScore (s : Int) : Int := max 0 (min 10 s)

/-- Modelled from the spec: FOUR_CHOICE grading — exact match against the
correct option gives score 10 for all target words, anything else gives the
configured penalty score for all target words; no partial credit. -/
def evaluateFourChoice (penalty : Int) (task : Task) (answer : String) :
    List (LexicalItem × Int) :=
  if answer = task.correctAnswer then task.learning_items.map (fun w => (w, 10))
  else task.learning_items.map (fun w => (w, penalty))

/-- Modelled from the spec: free-text grading delegates to the external
judge when available, mapping its confidence to 0-10, and falls back to a
strict string-equality check otherwise. -/
def evaluateFreeText (judge : Option (String → String → Int)) (task : Task)
    (answer : String) : List (LexicalItem × Int) :=
  match judge with
  | some j => task.learning_items.map (fun w => (w, clampScore (j task.correctAnswer answer)))
  | none => task.learning_items.map (fun w => (w, if answer = task.correctAnswer then 10 else 0))

/-- Modelled from the spec: grading dispatches on the task type (tagged
variant, spec section 9). -/
def evaluateTask (penalty : Int) (judge : Option (String → String → Int))
    (task : Task) (answer : String) : List (LexicalItem × Int) :=
  if task.task_type = "FOUR_CHOICE" then evaluateFourChoice penalty task answer
  else evaluateFreeText judge task answer

theorem evaluateTask_map_fst (penalty : Int) (judge : Option (String → String → Int))
    (task : Task) (answer : String) :
    (evaluateTask penalty judge task answer).map Prod.fst = task.learning_items := by
  unfold evaluateTask evaluateFourChoice evaluateFreeText
  by_cases ht : task.task_type = "FOUR_CHOICE" <;>
    by_cases ha : answer = task.correctAnswer <;>
      cases judge <;> simp [ht, ha, Function.comp_def]

/-! ## Claim theorems C4 and C9 -/

/-- C4: a FOUR_CHOICE task graded with the exact correct option yields score
10 for every target word, anything else yields the configured penalty for
every target word, with no partial credit and no score outside [0,10]. -/
theorem four_choice_grading (penalty : Int) (task : Task) (answer : String)
    (h0 : 0 ≤ penalty) (h10 : penalty ≤ 10) :
    (answer = task.correctAnswer →
      evaluateFourChoice penalty task answer = task.learning_items.map (fun w => (w, 10)))
    ∧ (answer ≠ task.correctAnswer →
      evaluateFourChoice penalty task answer = task.learning_items.map (fun w => (w, penalty)))
    ∧ (∀ p ∈ evaluateFourChoice penalty task answer, 0 ≤ p.2 ∧ p.2 ≤ 10) := by
  have hmem : ∀ p ∈ evaluateFourChoice penalty task answer, p.2 = 10 ∨ p.2 = penalty := by
    intro p hp
    unfold evaluateFourChoice at hp
    by_cases ha : answer = task.correctAnswer
    · rw [if_pos ha] at hp
      obtain ⟨w, -, rfl⟩ := List.mem_map.mp hp
      exact Or.inl rfl
    · rw [if_neg ha] at hp
      obtain ⟨w, -, rfl⟩ := List.mem_map.mp hp
      exact Or.inr rfl
  refine ⟨fun ha => by simp [evaluateFourChoice, ha],
          fun ha => by simp [evaluateFourChoice, ha], ?_⟩
  intro p hp
  rcases hmem p hp with h | h <;> rw [h]
  · exact ⟨by norm_num, le_refl 10⟩
  · exact ⟨h0, h10⟩

/-- Fixture: a FOUR_CHOICE task following the word-translation template of
src/db_data/templates.json — resources keyed target_word and A to D, correct
option C, targeting Apfel. -/
def demoResources : List (String × TaskResource) :=
  [("target_word", ⟨10, "Apfel", [demoApfel]⟩),
   ("A", ⟨11, "Banana", []⟩), ("B", ⟨12, "Cherry", []⟩),
   ("C", ⟨13, "Apple", [demoApfel]⟩), ("D", ⟨14, "Peach", []⟩)]

/-- Fixture: the FOUR_CHOICE task built from `demoResources`. -/
def demoFourChoiceTask : Task :=
  { id := 1
    task_type := "FOUR_CHOICE"
    task_string := "Which of the following coorectly translates the word Apfel into English?"
    correctAnswer := "C"
    resources := demoResources
    learning_items := [demoApfel] }

/-- Witness for C4: with penalty 2, the correct option C scores Apfel 10 and
the wrong option A scores it 2. -/
theorem four_choice_grading_witness :
    evaluateFourChoice 2 demoFourChoiceTask "C"
      = demoFourChoiceTask.learning_items.map (fun w => (w, 10))
    ∧ evaluateFourChoice 2 demoFourChoiceTask "A"
      = demoFourChoiceTask.learning_items.map (fun w => (w, 2)) :=
  ⟨(four_choice_grading 2 demoFourChoiceTask "C" (by decide) (by decide)).1 rfl,
   (four_choice_grading 2 demoFourChoiceTask "A" (by decide) (by decide)).2.1 (by decide)⟩

/-- C9: a generated Task has a non-empty target-word set, and grading it
records exactly one score per target word — every target word scored, no
word twice, no score for a non-target word. -/
theorem task_targets_scored_exactly_once (id : Nat) (ttype tstring answer0 : String)
    (resources : List (String × TaskResource)) (task : Task)
    (hok : buildTask id ttype tstring answer0 resources = Except.ok task) :
    task.learning_items ≠ []
    ∧ task.learning_items.Nodup
    ∧ ∀ (penalty : Int) (judge : Option (String → String → Int)) (answer : String),
        (evaluateTask penalty judge task answer).map Prod.fst = task.learning_items := by
  unfold buildTask at hok
  cases hts : taskTargetWords resources with
  | nil => rw [hts] at hok; cases hok
  | cons w ws =>
      rw [hts] at hok
      cases hok
      refine ⟨by simp, ?_, ?_⟩
      · show (w :: ws).Nodup
        rw [← hts]
        unfold taskTargetWords
        exact List.nodup_dedup _
      · intro penalty judge answer
        exact evaluateTask_map_fst penalty judge _ answer

/-- Fixture: the Task `buildTask` assembles from `demoResources` — its
deduplicated target-word set is exactly the Apfel singleton. -/
def demoBuiltTask : Task :=
  { id := 1
    task_type := "FOUR_CHOICE"
    task_string := "prompt"
    correctAnswer := "C"
    resources := demoResources
    learning_items := [demoApfel] }

/-- Witness for C9: the concrete built task has the non-empty, duplicate-free
target set and grading scores exactly that set. -/
theorem task_targets_scored_exactly_once_witness :
    demoBuiltTask.learning_items ≠ []
    ∧ demoBuiltTask.learning_items.Nodup
    ∧ (evaluateTask 2 none demoBuiltTask "C").map Prod.fst = demoBuiltTask.learning_items := by
  obtain ⟨h1, h2, h3⟩ := task_targets_scored_exactly_once 1 "FOUR_CHOICE" "prompt" "C"
    demoResources demoBuiltTask (by rfl)
  exact ⟨h1, h2, h3 2 none "C"⟩

/-! ## FourChoiceTaskCard (C10)

Embeds the FOUR_CHOICE answer path of the frontend: the card component
renders one radio button per option key and submits the selected key. -/

/-- Embeds the option keys of FourChoiceTaskCard: the card maps over the
literal list A, B, C, D. -/
def fourChoiceKeys : List String := ["A", "B", "C", "D"]

/-- Embeds the parameter names of the FOUR_CHOICE word-translation template
of src/db_data/templates.json. -/
def fourChoiceParams : List String := ["target_word", "A", "B", "C", "D"]

/-- Embeds the rendering of FourChoiceTaskCard: for each key A to D the card
shows the text of task.resources at that key; rendering needs all four keys
present among the resources. -/
def renderedOptions (task : Task) : Option (List (String × String)) :=
  match task.resources.lookup "A", task.resources.lookup "B",
        task.resources.lookup "C", task.resources.lookup "D" with
  | some ra, some rb, some rc, some rd =>
      some [("A", ra.resource), ("B", rb.resource),
            ("C", rc.resource), ("D", rd.resource)]
  | _, _, _, _ => none

/-- Embeds the submit path of FourChoiceTaskCard: the submit handler passes
the selected radio value, which is the option key itself, not the resource
text of the option. -/
def cardSubmittedAnswer (_task : Task) (selectedKey : String) : String :=
  selectedKey

theorem renderedOptions_isSome_iff (task : Task) :
    (renderedOptions task).isSome
      ↔ ∀ k ∈ fourChoiceKeys, (task.resources.lookup k).isSome := by
  have hkeys : (∀ k ∈ fourChoiceKeys, (task.resources.lookup k).isSome)
      ↔ ((task.resources.lookup "A").isSome ∧ (task.resources.lookup "B").isSome
          ∧ (task.resources.lookup "C").isSome ∧ (task.resources.lookup "D").isSome) := by
    constructor
    · intro h
      exact ⟨h "A" (by decide), h "B" (by decide), h "C" (by decide), h "D" (by decide)⟩
    · rintro ⟨h1, h2, h3, h4⟩ k hk
      fin_cases hk <;> assumption
  rw [hkeys]
  unfold renderedOptions
  cases hA : task.resources.lookup "A" <;> cases hB : task.resources.lookup "B" <;>
    cases hC : task.resources.lookup "C" <;> cases hD : task.resources.lookup "D" <;>
      simp

/-- C10: the card renders FOUR_CHOICE resources under the keys A, B, C, D —
which are template parameter names — and the answer it submits is the chosen
single-letter key, not the resource text, so exact-match grading can succeed
for some choice exactly when the stored correct answer is an option letter. -/
theorem four_choice_submits_option_key (task : Task) (sel : String)
    (hsel : sel ∈ fourChoiceKeys) :
    cardSubmittedAnswer task sel = sel
    ∧ cardSubmittedAnswer task sel ∈ fourChoiceKeys
    ∧ (∀ k ∈ fourChoiceKeys, k ∈ fourChoiceParams)
    ∧ ((renderedOptions task).isSome
        ↔ ∀ k ∈ fourChoiceKeys, (task.resources.lookup k).isSome)
    ∧ ((∃ s ∈ fourChoiceKeys, cardSubmittedAnswer task s = task.correctAnswer)
        ↔ task.correctAnswer ∈ fourChoiceKeys) := by
  refine ⟨rfl, hsel, by decide, renderedOptions_isSome_iff task, ?_⟩
  simp [cardSubmittedAnswer]

/-- Witness for C10: on the fixture task, choosing A submits the letter A,
and the stored correct answer C being a key makes correct grading possible. -/
theorem four_choice_submits_option_key_witness :
    cardSubmittedAnswer demoFourChoiceTask "A" = "A"
    ∧ ((∃ s ∈ fourChoiceKeys,
          cardSubmittedAnswer demoFourChoiceTask s = demoFourChoiceTask.correctAnswer)
        ↔ demoFourChoiceTask.correctAnswer ∈ fourChoiceKeys) :=
  ⟨(four_choice_submits_option_key demoFourChoiceTask "A" (by decide)).1,
   (four_choice_submits_option_key demoFourChoiceTask "A" (by decide)).2.2.2.2⟩

/-! ## Lesson state machine (C3, C6)

Modelled from the spec: the per-Lesson engine loop (spec sections 4.5, 5
and 6) is not under src/; the frontend call site is
src/vocabulary-frontend/app/user/[userId]/lesson/page.tsx, whose
SubmitTaskResponse carries `next_task : OrderedTask | null`. -/

/-- Modelled from the spec: the Lesson state machine
Created, InProgress, Finished (spec section 4.5). -/
inductive LessonStatus where
  | Created
  | InProgress
  | Finished
  deriving DecidableEq, Repr

/-- Modelled from the spec: explicit per-Lesson state — the persisted plan,
the sequence number of the current slot, the at-most-one outstanding
ungraded Task and the state-machine status. -/
structure LessonState where
  plan : List (Nat × LexicalItem)
  currentSeq : Nat
  outstanding : Option Task
  status : LessonStatus
  deriving DecidableEq, Repr

/-- Engine state of one running Lesson session: the user, the shared
MasteryStore and the Lesson. -/
structure EngineState where
  user : Nat
  store : MasteryStore
  lesson : LessonState
  deriving DecidableEq, Repr

/-- Modelled from the spec: the mastery update across all target words of
one Evaluation is applied as one atomic batch (spec section 7). -/
def recordAll (st : MasteryStore) (user : Nat)
    (scores : List (LexicalItem × Int)) : MasteryStore :=
  scores.foldl (fun acc p => upsertScore acc user p.1.id p.2) st

/-- Modelled from the spec: `submitAnswer` — grades the outstanding Task,
updates mastery, advances the Lesson and returns the next Task, or none when
the plan is exhausted (then the Lesson transitions to Finished). A
submission whose sequence number is not the currently outstanding one is
rejected with `StaleSubmission` and changes nothing. -/
def submitAnswer (penalty : Int) (judge : Option (String → String → Int))
    (mkTask : LexicalItem → Task) (st : EngineState) (order : Nat) (answer : String) :
    EngineState × Except EngineError (Option Task) :=
  match st.lesson.outstanding with
  | none => (st, .error .StaleSubmission)
  | some task =>
      if order ≠ st.lesson.currentSeq then (st, .error .StaleSubmission)
      else
        let scores := evaluateTask penalty judge task answer
        let store1 := recordAll st.store st.user scores
        match st.lesson.plan.filter (fun slot => st.lesson.currentSeq < slot.1) with
        | [] =>
            ({ st with
                store := store1
                lesson := { st.lesson with status := .Finished, outstanding := none } },
             .ok none)
        | (seq, w) :: _ =>
            let t := mkTask w
            ({ st with
                store := store1
                lesson := { st.lesson with currentSeq := seq, outstanding := some t } },
             .ok (some t))

/-- Modelled from the spec: `finishLesson` marks the Lesson Finished early;
no task for a skipped slot is generated or scored. -/
def finishLesson (st : EngineState) : EngineState :=
  { st with lesson := { st.lesson with status := .Finished, outstanding := none } }

/-! ## Claim theorems C3 and C6 -/

/-- C3: an answer submitted for a sequence number other than the currently
outstanding one is rejected with StaleSubmission and leaves the whole engine
state — the MasteryStore included — unchanged; and the engine never holds
more than one outstanding ungraded Task per Lesson. -/
theorem stale_submission_rejected (penalty : Int)
    (judge : Option (String → String → Int)) (mkTask : LexicalItem → Task)
    (st : EngineState) (order : Nat) (answer : String)
    (horder : order ≠ st.lesson.currentSeq) :
    submitAnswer penalty judge mkTask st order answer
        = (st, Except.error EngineError.StaleSubmission)
    ∧ (submitAnswer penalty judge mkTask st order answer).1.store = st.store
    ∧ ∀ (st' : EngineState) (o : Nat) (a : String),
        (submitAnswer penalty judge mkTask st' o a).1.lesson.outstanding.toList.length ≤ 1 := by
  have hrej : submitAnswer penalty judge mkTask st order answer
      = (st, Except.error EngineError.StaleSubmission) := by
    unfold submitAnswer
    cases st.lesson.outstanding with
    | none => rfl
    | some task => simp [horder]
  refine ⟨hrej, by rw [hrej], ?_⟩
  intro st' o a
  cases hfin : (submitAnswer penalty judge mkTask st' o a).1.lesson.outstanding <;> simp

/-- Witness for C3: submitting order 2 while slot 1 is outstanding is
rejected and the engine state is untouched. -/
theorem stale_submission_rejected_witness :
    submitAnswer 2 none (fun _ => demoFourChoiceTask)
        ⟨0, MasteryStore.empty,
         ⟨[(1, demoApfel)], 1, some demoFourChoiceTask, LessonStatus.InProgress⟩⟩ 2 "C"
      = (⟨0, MasteryStore.empty,
          ⟨[(1, demoApfel)], 1, some demoFourChoiceTask, LessonStatus.InProgress⟩⟩,
         Except.error EngineError.StaleSubmission) :=
  (stale_submission_rejected 2 none (fun _ => demoFourChoiceTask)
    ⟨0, MasteryStore.empty,
     ⟨[(1, demoApfel)], 1, some demoFourChoiceTask, LessonStatus.InProgress⟩⟩ 2 "C"
    (by decide)).1

/-- C6: once the last planned slot is evaluated the Lesson transitions to
Finished and submitAnswer returns no next task; and no operation leads back
out of Finished. -/
theorem lesson_finishes_after_last_slot (penalty : Int)
    (judge : Option (String → String → Int)) (mkTask : LexicalItem → Task)
    (st : EngineState) (task : Task) (answer : String)
    (hout : st.lesson.outstanding = some task)
    (hlast : st.lesson.plan.filter (fun slot => st.lesson.currentSeq < slot.1) = []) :
    (submitAnswer penalty judge mkTask st st.lesson.currentSeq answer).1.lesson.status
        = LessonStatus.Finished
    ∧ (submitAnswer penalty judge mkTask st st.lesson.currentSeq answer).2
        = Except.ok none
    ∧ (∀ (st' : EngineState) (o : Nat) (a : String),
        st'.lesson.status = LessonStatus.Finished →
        (submitAnswer penalty judge mkTask st' o a).1.lesson.status = LessonStatus.Finished)
    ∧ (∀ st' : EngineState, (finishLesson st').lesson.status = LessonStatus.Finished) := by
  have hs : submitAnswer penalty judge mkTask st st.lesson.currentSeq answer
      = ({ st with
            store := recordAll st.store st.user (evaluateTask penalty judge task answer)
            lesson := { st.lesson with status := .Finished, outstanding := none } },
         Except.ok none) := by
    unfold submitAnswer
    rw [hout]
    simp [hlast]
  refine ⟨by rw [hs], by rw [hs], ?_, fun st' => rfl⟩
  intro st' o a hfin
  unfold submitAnswer
  split
  · exact hfin
  · split
    · exact hfin
    · split
      · rfl
      · exact hfin

/-- Witness for C6: submitting the answer for the only planned slot finishes
the Lesson and returns no next task. -/
theorem lesson_finishes_after_last_slot_witness :
    (submitAnswer 2 none (fun _ => demoFourChoiceTask)
        ⟨0, MasteryStore.empty,
         ⟨[(1, demoApfel)], 1, some demoFourChoiceTask, LessonStatus.InProgress⟩⟩ 1 "C").2
      = Except.ok none :=
  (lesson_finishes_after_last_slot 2 none (fun _ => demoFourChoiceTask)
    ⟨0, MasteryStore.empty,
     ⟨[(1, demoApfel)], 1, some demoFourChoiceTask, LessonStatus.InProgress⟩⟩
    demoFourChoiceTask "C" rfl (by decide)).2.1

/-! ## TaskGenerator retry and startLesson (C7)

Modelled from the spec: the generation pipeline (spec sections 4.4, 5, 7)
is not under src/; the `templates`, `user_lessons`, `evaluations` and
`tasks` tables of src/schema.sql give the row shapes. -/

/-- Embeds a row of the `templates` table of src/schema.sql (the columns the
retry policy needs: id, task_type, template string). -/
structure TemplateDef where
  id : Nat
  task_type : String
  template : String
  deriving DecidableEq, Repr

/-- Modelled from the spec: choose an alternate TemplateDef of the same task
type as the failed one (spec section 7). -/
def pickAlternate (tcat : List TemplateDef) (primary : TemplateDef) :
    Option TemplateDef :=
  (tcat.filter (fun t => t.task_type == primary.task_type && t.id != primary.id)).head?

/-- Modelled from the spec: a failed generation is retried once against an
alternate TemplateDef of the same type before `GenerationUnavailable`
surfaces to the caller (spec section 7). The external generator is the
`gen` oracle; `none` is a failure or timeout. -/
def generateWithRetry (gen : TemplateDef → Option Task) (tcat : List TemplateDef)
    (primary : TemplateDef) : Except EngineError Task :=
  match gen primary with
  | some t => .ok t
  | none =>
      match pickAlternate tcat primary with
      | none => .error .GenerationUnavailable
      | some alt =>
          match gen alt with
          | some t => .ok t
          | none => .error .GenerationUnavailable

/-- Durable rows touched by `startLesson`: the `user_lessons`,
`evaluations` (lesson_id, sequence_number) and `tasks` tables of
src/schema.sql. -/
structure EngineDB where
  lessons : List (Nat × Nat)
  evaluations : List (Nat × Nat)
  tasks : List Task
  deriving DecidableEq, Repr

/-- Modelled from the spec: `startLesson(userId)` creates a Lesson, computes
and persists its plan and generates the first Task; when generation fails
after the retry it fails with `GenerationUnavailable` and leaves no Lesson,
Evaluation or Task rows behind. An empty plan completes immediately with no
tasks. -/
def startLesson (gen : TemplateDef → Option Task) (tcat : List TemplateDef)
    (primary : TemplateDef) (cfg : SchedulerConfig) (catalog : List LexicalItem)
    (db : EngineDB) (ms : MasteryStore) (user : Nat) :
    EngineDB × Except EngineError (Nat × Option Task) :=
  match lessonPlan cfg ms user catalog with
  | [] =>
      let lessonId := db.lessons.length + 1
      ({ db with lessons := (lessonId, user) :: db.lessons }, .ok (lessonId, none))
  | slot :: slots =>
      match generateWithRetry gen tcat primary with
      | .error e => (db, .error e)
      | .ok t =>
          let lessonId := db.lessons.length + 1
          ({ lessons := (lessonId, user) :: db.lessons
             evaluations := (slot :: slots).map (fun sl => (lessonId, sl.1)) ++ db.evaluations
             tasks := t :: db.tasks },
           .ok (lessonId, some t))

/-- Modelled from the spec: generate the Task for the pending slot of a
running Lesson; on failure the Lesson state — its plan included — is
untouched and the slot stays pending (spec section 7). -/
def produceTaskForSlot (gen : TemplateDef → Option Task) (tcat : List TemplateDef)
    (primary : TemplateDef) (st : EngineState) :
    EngineState × Except EngineError Task :=
  match generateWithRetry gen tcat primary with
  | .error e => (st, .error e)
  | .ok t =>
      ({ st with lesson := { st.lesson with outstanding := some t } }, .ok t)

/-! ## Claim theorem C7 -/

/-- C7: a failed generation is retried once against an alternate template of
the same task type; after both attempts fail the error surfaces as
GenerationUnavailable, an in-lesson failure leaves the Lesson state — plan
and pending slot — untouched, and a failing startLesson leaves no Lesson,
Evaluation or Task rows behind. -/
theorem generation_failure_clean (gen : TemplateDef → Option Task)
    (tcat : List TemplateDef) (primary alt : TemplateDef)
    (cfg : SchedulerConfig) (catalog : List LexicalItem) (db : EngineDB)
    (ms : MasteryStore) (user : Nat) (st : EngineState)
    (hp : gen primary = none) (halt : pickAlternate tcat primary = some alt) :
    alt.task_type = primary.task_type
    ∧ (∀ t, gen alt = some t → generateWithRetry gen tcat primary = Except.ok t)
    ∧ (gen alt = none →
        generateWithRetry gen tcat primary = Except.error EngineError.GenerationUnavailable
        ∧ produceTaskForSlot gen tcat primary st
            = (st, Except.error EngineError.GenerationUnavailable)
        ∧ (lessonPlan cfg ms user catalog ≠ [] →
            startLesson gen tcat primary cfg catalog db ms user
              = (db, Except.error EngineError.GenerationUnavailable))) := by
  have halt' : (tcat.filter
      (fun t => t.task_type == primary.task_type && t.id != primary.id)).head?
      = some alt := halt
  have hmem : alt ∈ tcat.filter
      (fun t => t.task_type == primary.task_type && t.id != primary.id) :=
    mem_of_head?_eq_some halt'
  have hpred := (List.mem_filter.mp hmem).2
  have htype : alt.task_type = primary.task_type := by
    simp only [Bool.and_eq_true, beq_iff_eq] at hpred
    exact hpred.1
  have hretry : ∀ t, gen alt = some t →
      generateWithRetry gen tcat primary = Except.ok t := by
    intro t hgt
    unfold generateWithRetry
    simp only [hp, halt, hgt]
  refine ⟨htype, hretry, ?_⟩
  intro ha
  have hgen : generateWithRetry gen tcat primary
      = Except.error EngineError.GenerationUnavailable := by
    unfold generateWithRetry
    simp only [hp, halt, ha]
  refine ⟨hgen, ?_, ?_⟩
  · unfold produceTaskForSlot
    rw [hgen]
  · intro hplan
    cases hpl : lessonPlan cfg ms user catalog with
    | nil => exact absurd hpl hplan
    | cons slot slots =>
        unfold startLesson
        rw [hpl, hgen]

/-- Fixture: primary FOUR_CHOICE template for the C7 scenario. -/
def demoPrimaryTemplate : TemplateDef := ⟨1, "FOUR_CHOICE", "tmplA"⟩

/-- Fixture: the alternate FOUR_CHOICE template the retry picks. -/
def demoAlternateTemplate : TemplateDef := ⟨2, "FOUR_CHOICE", "tmplB"⟩

/-- Fixture: template catalog holding both FOUR_CHOICE templates. -/
def demoTemplateCatalog : List TemplateDef :=
  [demoPrimaryTemplate, demoAlternateTemplate]

/-- Fixture: an empty database with no Lesson, Evaluation or Task rows. -/
def demoDB : EngineDB := ⟨[], [], []⟩

/-- Fixture: a running Lesson session with slot 1 pending. -/
def demoEngineState : EngineState :=
  ⟨0, MasteryStore.empty, ⟨[(1, demoApfel)], 1, none, LessonStatus.InProgress⟩⟩

/-- Witness for C7: with a generator that times out on both attempts,
startLesson fails with GenerationUnavailable and the database rows are
exactly as before. -/
theorem generation_failure_clean_witness :
    startLesson (fun _ => none) demoTemplateCatalog demoPrimaryTemplate demoConfig
        demoCatalog demoDB MasteryStore.empty 0
      = (demoDB, Except.error EngineError.GenerationUnavailable) :=
  ((generation_failure_clean (fun _ => none) demoTemplateCatalog demoPrimaryTemplate
      demoAlternateTemplate demoConfig demoCatalog demoDB MasteryStore.empty 0
      demoEngineState rfl (by decide)).2.2 rfl).2.2 (by decide)

/-! ## Resource cache (C8)

Modelled from the spec: Resources are content-addressed by (template
parameter, target word set) (spec section 4.4); the `resources` and
`resource_words` tables of src/schema.sql persist them. -/

/-- Modelled from the spec: the persisted Resource cache, keyed by the
template parameter id and the target word ids, together with a count of the
calls made to the external content generator. -/
structure ResourceCache where
  entries : List ((Nat × List Nat) × TaskResource)
  genCalls : Nat
  deriving DecidableEq, Repr

/-- Modelled from the spec: obtain the Resource for a (template parameter,
target word set) key — first a cache lookup, and only on a miss one call to
the external content generator `synth`, whose result is persisted. -/
def getResource (synth : Nat × List Nat → TaskResource) (env : ResourceCache)
    (key : Nat × List Nat) : ResourceCache × TaskResource :=
  match env.entries.lookup key with
  | some r => (env, r)
  | none =>
      let r := synth key
      ({ entries := (key, r) :: env.entries, genCalls := env.genCalls + 1 }, r)

/-! ## Claim theorem C8 -/

/-- C8: requesting a Resource a second time for the same (template parameter,
target word set) key returns the previously cached Resource and leaves the
cache — its generator call count included — unchanged: the external content
generator is not invoked again. -/
theorem resource_request_idempotent (synth : Nat × List Nat → TaskResource)
    (env : ResourceCache) (key : Nat × List Nat) :
    getResource synth (getResource synth env key).1 key = getResource synth env key
    ∧ (getResource synth (getResource synth env key).1 key).1.genCalls
        = (getResource synth env key).1.genCalls := by
  have hsame : getResource synth (getResource synth env key).1 key
      = getResource synth env key := by
    unfold getResource
    cases hl : env.entries.lookup key with
    | some r => simp [hl]
    | none => simp [hl]
  exact ⟨hsame, by rw [hsame]⟩

end VocabBuilder









